import Mathlib

/-!
Shallow embedding of the client-side job-lifecycle logic of
`src/app/script.js` (DeepResearch Agent front end), together with the
initial DOM state fixed by the page markup.  Pure rendering helpers are
embedded as Lean functions on `List Char` / `String`; the stateful
controller is embedded as a step function on an explicit `AppState`,
driven by the externally observable events (form submission, interval
timer firing, fetch resolution, reset-button clicks).
-/

namespace DrDemo

/-! ### Markdown renderer (`markdownToHtml`, script.js lines 45–65)

The JS function applies a fixed sequence of global regex replacements.
Each replacement is embedded below in source order:
headings `^### `, `^## `, `^# ` (per line, `gm`), then lazy inline
`\*\*(.*?)\*\*` and `\*(.*?)\*` (where `.` never matches a newline),
then the list-item rules `^\d+\.\s+(.*$)` and `^-\s+(.*$)` (`gm`),
then `\n` → `<br>`. -/

/-- Line splitting on the newline character, mirroring how the `m` flag
anchors `^`/`$` at line boundaries.  `splitOnNl "a\nb" = [a, b]`. -/
def splitOnNl : List Char → List (List Char)
  | [] => [[]]
  | '\n' :: rest => [] :: splitOnNl rest
  | c :: rest =>
    match splitOnNl rest with
    | l :: ls => (c :: l) :: ls
    | [] => [[c]]

/-- Re-join the lines produced by `splitOnNl`. -/
def joinNl (ls : List (List Char)) : List Char :=
  List.intercalate ['\n'] ls

/-- `markdown.replace(/^### (.*$)/gm, '<h5>$1</h5>')` on one line. -/
def replaceH5Line : List Char → List Char
  | '#' :: '#' :: '#' :: ' ' :: rest => "<h5>".data ++ rest ++ "</h5>".data
  | cs => cs

/-- `markdown.replace(/^## (.*$)/gm, '<h4>$1</h4>')` on one line. -/
def replaceH4Line : List Char → List Char
  | '#' :: '#' :: ' ' :: rest => "<h4>".data ++ rest ++ "</h4>".data
  | cs => cs

/-- `markdown.replace(/^# (.*$)/gm, '<h3>$1</h3>')` on one line. -/
def replaceH3Line : List Char → List Char
  | '#' :: ' ' :: rest => "<h3>".data ++ rest ++ "</h3>".data
  | cs => cs

/-- Apply a per-line rewrite to every line of the text (a `gm` regex whose
pattern cannot cross a newline). -/
def mapLines (f : List Char → List Char) (cs : List Char) : List Char :=
  joinNl ((splitOnNl cs).map f)

/-- For the lazy pattern `\*\*(.*?)\*\*`: after an opening `**`, find the
closest closing `**` with no newline in between (JS `.` does not match
`\n`); returns the captured content and the remainder after the close. -/
def findStrongClose : List Char → Option (List Char × List Char)
  | [] => none
  | '*' :: '*' :: rest => some ([], rest)
  | c :: rest =>
    if c = '\n' then none
    else (findStrongClose rest).map (fun p => (c :: p.1, p.2))

/-- `markdown.replace(/\*\*(.*?)\*\*/g, '<strong>$1</strong>')`.
The fuel argument only bounds the left-to-right scan; `fuel = length`
always suffices because every step consumes at least one character. -/
def strongPassF : Nat → List Char → List Char
  | 0, cs => cs
  | _ + 1, [] => []
  | fuel + 1, '*' :: '*' :: rest =>
    match findStrongClose rest with
    | some (content, r) =>
      "<strong>".data ++ content ++ "</strong>".data ++ strongPassF fuel r
    | none => '*' :: '*' :: strongPassF fuel rest
  | fuel + 1, c :: rest => c :: strongPassF fuel rest

/-- For the lazy pattern `\*(.*?)\*`: the closest closing `*` with no
newline in between. -/
def findEmClose : List Char → Option (List Char × List Char)
  | [] => none
  | '*' :: rest => some ([], rest)
  | c :: rest =>
    if c = '\n' then none
    else (findEmClose rest).map (fun p => (c :: p.1, p.2))

/-- `markdown.replace(/\*(.*?)\*/g, '<em>$1</em>')`. -/
def emPassF : Nat → List Char → List Char
  | 0, cs => cs
  | _ + 1, [] => []
  | fuel + 1, '*' :: rest =>
    match findEmClose rest with
    | some (content, r) =>
      "<em>".data ++ content ++ "</em>".data ++ emPassF fuel r
    | none => '*' :: emPassF fuel rest
  | fuel + 1, c :: rest => c :: emPassF fuel rest

/-- The whitespace class `\s` of JS regexes, restricted to the characters
that can occur in this system's inputs. -/
def jsWhitespace (c : Char) : Bool :=
  c = ' ' || c = '\t' || c = '\n' || c = '\r' || c = '\x0b' || c = '\x0c'

/-- Greedily drop a run of `\d+` (at least one digit); `none` otherwise. -/
def dropDigits1 : List Char → Option (List Char)
  | c :: rest =>
    if c.isDigit then
      some (go rest)
    else none
  | [] => none
where
  go : List Char → List Char
  | c :: rest => if c.isDigit then go rest else c :: rest
  | [] => []

/-- Greedily drop a run of `\s+` (at least one); `none` otherwise. -/
def dropWs1 : List Char → Option (List Char)
  | c :: rest =>
    if jsWhitespace c then
      some (go rest)
    else none
  | [] => none
where
  go : List Char → List Char
  | c :: rest => if jsWhitespace c then go rest else c :: rest
  | [] => []

/-- Split off `(.*$)`: the content up to the next newline (exclusive) and
the remainder starting at that newline. -/
def takeToEol : List Char → List Char × List Char
  | [] => ([], [])
  | c :: rest =>
    if c = '\n' then ([], c :: rest)
    else
      let p := takeToEol rest
      (c :: p.1, p.2)

/-- Attempt `\d+\.\s+(.*$)` at a `^` position; on success return the
captured content and the remainder after the match. -/
def tryNumItem (cs : List Char) : Option (List Char × List Char) :=
  match dropDigits1 cs with
  | none => none
  | some rest1 =>
    match rest1 with
    | '.' :: rest2 =>
      match dropWs1 rest2 with
      | none => none
      | some rest3 => some (takeToEol rest3)
    | _ => none

/-- Attempt `-\s+(.*$)` at a `^` position. -/
def tryDashItem (cs : List Char) : Option (List Char × List Char) :=
  match cs with
  | '-' :: rest1 =>
    match dropWs1 rest1 with
    | none => none
    | some rest2 => some (takeToEol rest2)
  | _ => none

/-- A `gm`-anchored list-item replacement: scan left to right, attempting
the item pattern at every line start, replacing matches with
`<li>content</li>`.  The Boolean records whether the scan position is a
`^` position. -/
def listPassF (rule : List Char → Option (List Char × List Char)) :
    Nat → Bool → List Char → List Char
  | 0, _, cs => cs
  | _ + 1, _, [] => []
  | fuel + 1, true, cs =>
    match rule cs with
    | some (content, rest) =>
      "<li>".data ++ content ++ "</li>".data ++ listPassF rule fuel false rest
    | none =>
      match cs with
      | [] => []
      | c :: rest => c :: listPassF rule fuel (c = '\n') rest
  | fuel + 1, false, c :: rest => c :: listPassF rule fuel (c = '\n') rest

/-- JS `String.prototype.trim()`: strip leading and trailing whitespace
(the same character class as `\s` for the inputs of this system). -/
def jsTrim (s : String) : String :=
  String.mk
    (((s.data.dropWhile fun c => jsWhitespace c).reverse.dropWhile
      fun c => jsWhitespace c).reverse)

/-- `markdown.replace(/\n/g, '<br>')`. -/
def brPass : List Char → List Char
  | [] => []
  | '\n' :: rest => "<br>".data ++ brPass rest
  | c :: rest => c :: brPass rest

/-- The replacement pipeline of `markdownToHtml`, in source order. -/
def convertMarkdown (s : String) : String :=
  let cs := s.data
  let cs := mapLines replaceH5Line cs
  let cs := mapLines replaceH4Line cs
  let cs := mapLines replaceH3Line cs
  let cs := strongPassF (cs.length + 1) cs
  let cs := emPassF (cs.length + 1) cs
  let cs := listPassF tryNumItem (cs.length + 1) true cs
  let cs := listPassF tryDashItem (cs.length + 1) true cs
  String.mk (brPass cs)

/-- `markdownToHtml` (script.js lines 45–65).  The argument is an
`Option String` because callers pass possibly-absent report fields; the
guard `if (!markdown) return ''` treats `null`/`undefined` and the empty
string alike. -/
def markdownToHtml (markdown : Option String) : String :=
  match markdown with
  | none => ""
  | some s => if s = "" then "" else convertMarkdown s

/-! ### Data model (status JSON of `GET /api/research/status/{id}`) -/

/-- A source reference of the report (`report.sources[i]`); `title` is an
optional JSON field that may also be the empty string. -/
structure SourceRef where
  url : String
  title : Option String
  deriving DecidableEq

/-- One entry of `report.analysis_steps`. -/
structure AnalysisStep where
  question : String
  answer : String
  sources : List String
  deriving DecidableEq

/-- The completed report (`status.report`). -/
structure Report where
  topic : String
  summary : String
  key_findings : List String
  detailed_analysis : String
  analysis_steps : List AnalysisStep
  sources : List SourceRef
  deriving DecidableEq

/-- The `status` enum of the status JSON. -/
inductive StatusTag where
  | running
  | completed
  | failed
  deriving DecidableEq

/-- The status JSON.  `progress` is a JSON number in `[0,1]`, modelled as
a rational; on all inputs appearing in this development the rational
computation agrees with the JS double computation. -/
structure JobStatus where
  status : StatusTag
  progress : ℚ
  current_step : String
  report : Option Report
  error : Option String
  deriving DecidableEq

/-- `Math.round(status.progress * 100)`: JS rounds half toward `+∞`,
i.e. `⌊x·100 + 1/2⌋`.  Written on the numerator and denominator of the
rational, `⌊progress·100 + 1/2⌋ = ⌊(200·num + den) / (2·den)⌋`, with the
flooring division `Int.fdiv` (the denominator is positive). -/
def jsRound100 (progress : ℚ) : Int :=
  Int.fdiv (200 * progress.num + (progress.den : Int)) (2 * (progress.den : Int))

/-- The JS expression `x || d` for a possibly-absent string `x`:
`undefined`, `null` and `""` are falsy and select the fallback. -/
def jsOrElse (x : Option String) (d : String) : String :=
  match x with
  | some s => if s = "" then d else s
  | none => d

/-! ### Rendered report content (what `showResults` writes into the DOM) -/

/-- What one `analysis_steps` accordion entry displays. -/
structure RenderedStep where
  question : String
  answerHtml : String
  sourcesText : String
  deriving DecidableEq

/-- The content `showResults` writes into the results region. -/
structure RenderedReport where
  topicText : String
  summaryHtml : String
  findingsHtml : List String
  detailedHtml : String
  steps : List RenderedStep
  sourceLinks : List (String × String)
  deriving DecidableEq

/-- The display text of a rendered source link (script.js line 296):
`source.title && source.title !== '' ? source.title : source.url`. -/
def linkText (src : SourceRef) : String :=
  match src.title with
  | some t => if t = "" then src.url else t
  | none => src.url

/-- The DOM writes of `showResults` for a present report
(script.js lines 246–299), as a pure value. -/
def renderReport (r : Report) : RenderedReport :=
  { topicText := r.topic
    summaryHtml := markdownToHtml (some r.summary)
    findingsHtml := r.key_findings.map (fun f => markdownToHtml (some f))
    detailedHtml := markdownToHtml (some r.detailed_analysis)
    steps := r.analysis_steps.map (fun st =>
      { question := st.question
        answerHtml := markdownToHtml (some st.answer)
        sourcesText :=
          if st.sources.length > 0 then String.intercalate ", " st.sources
          else "无特定来源" })
    sourceLinks := r.sources.map (fun src => (src.url, linkText src)) }

/-! ### Application state

The mutable state of script.js: the two globals (`activeResearchId`,
`pollingTimer`), the visibility of the four view regions (the form card
and the `researchProgress`, `researchResults`, `errorCard` cards, toggled
via the `d-none` class), the text contents the functions write, and the
disabled flags of the submit and new-research buttons.  `timers` counts
the live `setInterval` schedules (a schedule stays live until some
`clearInterval` names its handle) while `storedTimer` says whether the
`pollingTimer` variable currently holds a handle; `pending` counts status
fetches that have been started but whose `await` has not yet resumed;
`networkCalls` counts every `fetch` issued; `log` collects
`console.error` output. -/
structure AppState where
  activeResearchId : Option String
  timers : Nat
  storedTimer : Bool
  pending : Nat
  formVisible : Bool
  progressVisible : Bool
  resultsVisible : Bool
  errorVisible : Bool
  startBtnDisabled : Bool
  newBtnDisabled : Bool
  progressTopic : String
  progressPct : Int
  stepText : String
  errorMsg : String
  rendered : Option RenderedReport
  networkCalls : Nat
  log : List String
  deriving DecidableEq

/-- The page as loaded (`index.html`): the form card visible, the three
other cards carrying `d-none`, the submit button enabled, and the
progress-view new-research button carrying `disabled`. -/
def initState : AppState :=
  { activeResearchId := none
    timers := 0
    storedTimer := false
    pending := 0
    formVisible := true
    progressVisible := false
    resultsVisible := false
    errorVisible := false
    startBtnDisabled := false
    newBtnDisabled := true
    progressTopic := ""
    progressPct := 0
    stepText := ""
    errorMsg := ""
    rendered := none
    networkCalls := 0
    log := [] }

/-! ### The functions of script.js, in source order -/

/-- `updateProgress` (lines 225–230). -/
def updateProgress (percentage : Int) (stp : String) (s : AppState) : AppState :=
  { s with progressPct := percentage, stepText := stp }

/-- `showProgressView` (lines 194–204). -/
def showProgressView (topic : String) (s : AppState) : AppState :=
  let s := { s with formVisible := false, resultsVisible := false,
                    errorVisible := false }
  let s := { s with progressVisible := true, progressTopic := topic }
  updateProgress 0 "初始化中..." s

/-- `updateProgressView` (lines 210–218). -/
def updateProgressView (st : JobStatus) (s : AppState) : AppState :=
  let s := updateProgress (jsRound100 st.progress) st.current_step s
  if st.status = .completed ∨ st.status = .failed then
    { s with newBtnDisabled := false }
  else s

/-- `showResults` (lines 236–300): a no-op when no report is present. -/
def showResults (st : JobStatus) (s : AppState) : AppState :=
  match st.report with
  | none => s
  | some r =>
    { s with progressVisible := false, errorVisible := false,
             resultsVisible := true, rendered := some (renderReport r) }

/-- `showError` (lines 306–314).  The form card is not touched. -/
def showError (message : String) (s : AppState) : AppState :=
  { s with progressVisible := false, resultsVisible := false,
           errorVisible := true, errorMsg := message }

/-- `stopPolling` (lines 168–173): clears the stored schedule, if any. -/
def stopPolling (s : AppState) : AppState :=
  if s.storedTimer then { s with timers := s.timers - 1, storedTimer := false }
  else s

/-- `startPolling`'s schedule creation (lines 138–142): guarded by the
falsiness check `if (!activeResearchId) return` and overwriting
`pollingTimer` with the new handle. -/
def startPolling (s : AppState) : AppState :=
  match s.activeResearchId with
  | none => s
  | some rid =>
    if rid = "" then s
    else { s with timers := s.timers + 1, storedTimer := true }

/-- `resetResearch` (lines 319–335). -/
def resetResearch (s : AppState) : AppState :=
  let s := stopPolling s
  let s := { s with activeResearchId := none }
  let s := { s with startBtnDisabled := false }
  { s with formVisible := true, progressVisible := false,
           resultsVisible := false, errorVisible := false }

/-- Outcome of the `POST /api/research/start` fetch: the parsed
`research_id` on a 2xx response, the status code on a non-2xx response
(thrown as `Error("API错误: ...")`), or a transport failure. -/
inductive StartOutcome where
  | ok (research_id : String)
  | httpError (code : Nat)
  | transportError (message : String)
  deriving DecidableEq

/-- `handleSubmitResearch` (lines 81–133), with the outcome of its start
fetch supplied by the environment. -/
def handleSubmitResearch (rawTopic : String) (outcome : StartOutcome)
    (s : AppState) : AppState :=
  let topic := jsTrim rawTopic
  if topic = "" then showError "请输入研究主题" s
  else
    let s := { s with startBtnDisabled := true }
    let s := { s with networkCalls := s.networkCalls + 1 }
    match outcome with
    | .ok rid =>
      let s := { s with activeResearchId := some rid }
      let s := showProgressView topic s
      startPolling s
    | .httpError code =>
      let msg := "API错误: " ++ toString code
      let s := { s with log := s.log ++ ["启动研究失败: " ++ msg] }
      let s := showError ("启动研究失败: " ++ msg) s
      { s with startBtnDisabled := false }
    | .transportError m =>
      let s := { s with log := s.log ++ ["启动研究失败: " ++ m] }
      let s := showError ("启动研究失败: " ++ m) s
      { s with startBtnDisabled := false }

/-- Outcome of one `fetchResearchStatus` call: the parsed status JSON on
a 2xx response, the status code otherwise, or a transport failure. -/
inductive FetchOutcome where
  | ok (st : JobStatus)
  | httpError (code : Nat)
  | transportError (message : String)
  deriving DecidableEq

/-- The body of the `setInterval` callback of `startPolling`
(lines 142–162), run when its status fetch resolves or rejects.  It
applies its result unconditionally — there is no check that the
controller is still polling. -/
def pollTickBody (out : FetchOutcome) (s : AppState) : AppState :=
  match out with
  | .ok st =>
    let s := updateProgressView st s
    if st.status = .completed ∨ st.status = .failed then
      let s := stopPolling s
      if st.status = .completed then showResults st s
      else showError ("研究失败: " ++ jsOrElse st.error "未知错误") s
    else s
  | .httpError code =>
    let msg := "API错误: " ++ toString code
    let s := { s with log := s.log ++ ["获取研究状态失败: " ++ msg] }
    let s := stopPolling s
    showError ("获取研究状态失败: " ++ msg) s
  | .transportError m =>
    let s := { s with log := s.log ++ ["获取研究状态失败: " ++ m] }
    let s := stopPolling s
    showError ("获取研究状态失败: " ++ m) s

/-! ### Event system

The externally observable events of the single-threaded browser event
loop.  A form submission can only be delivered while the form card is
displayed and its default (submit) button is enabled; a reset click
requires one of the three new-research buttons to be displayed and
enabled (the buttons in the results and error cards are always enabled,
the one in the progress card starts `disabled` and is enabled by
`updateProgressView` on a terminal status).  An interval tick fires while
some schedule is live; its fetch resolves later as a separate event. -/
inductive Event where
  | submit (rawTopic : String) (outcome : StartOutcome)
  | tickFire
  | tickResolve (out : FetchOutcome)
  | resetClick
  deriving DecidableEq

/-- Whether a form submission can currently be delivered. -/
def submitEnabled (s : AppState) : Bool :=
  s.formVisible && !s.startBtnDisabled

/-- Whether a reset (new-research) click can currently be delivered. -/
def resetEnabled (s : AppState) : Bool :=
  (s.progressVisible && !s.newBtnDisabled) || s.resultsVisible || s.errorVisible

/-- One step of the event loop. -/
def step (s : AppState) (e : Event) : AppState :=
  match e with
  | .submit raw out =>
    if submitEnabled s then handleSubmitResearch raw out s else s
  | .tickFire =>
    if s.timers ≥ 1 then
      { s with pending := s.pending + 1, networkCalls := s.networkCalls + 1 }
    else s
  | .tickResolve out =>
    if s.pending ≥ 1 then pollTickBody out { s with pending := s.pending - 1 }
    else s
  | .resetClick =>
    if resetEnabled s then resetResearch s else s

/-- Run a sequence of events from a state. -/
def run (s : AppState) (evs : List Event) : AppState :=
  evs.foldl step s

/-! ### Invariants of the event loop -/

/-- Timer bookkeeping invariant: the number of live interval schedules is
`1` exactly when `pollingTimer` holds a handle (so no schedule ever
leaks), and no schedule is live while a form submission is deliverable. -/
def TimerInv (s : AppState) : Prop :=
  s.timers = (if s.storedTimer then 1 else 0) ∧
  (s.formVisible = true → s.startBtnDisabled = false → s.storedTimer = false)

/-- How many of the progress, results and error regions are displayed. -/
def regionCount (s : AppState) : Nat :=
  (if s.progressVisible then 1 else 0) + (if s.resultsVisible then 1 else 0) +
    (if s.errorVisible then 1 else 0)

theorem timerInv_step (s : AppState) (e : Event) (h : TimerInv s) :
    TimerInv (step s e) := by
  obtain ⟨h1, h2⟩ := h
  cases e with
  | submit raw out =>
    by_cases hen : submitEnabled s = true
    · have hf : s.formVisible = true := by
        simp only [submitEnabled, Bool.and_eq_true] at hen; exact hen.1
      have hb : s.startBtnDisabled = false := by
        simp only [submitEnabled, Bool.and_eq_true, Bool.not_eq_true'] at hen
        exact hen.2
      have hst : s.storedTimer = false := h2 hf hb
      have ht : s.timers = 0 := by simpa [hst] using h1
      by_cases hT : jsTrim raw = "" <;> cases out
      all_goals
        simp_all [step, handleSubmitResearch, showError, showProgressView,
          updateProgress, startPolling, TimerInv]
      all_goals (split <;> simp_all)
    · simp_all [step, TimerInv]
  | tickFire =>
    by_cases ht : s.timers ≥ 1 <;> simp_all [step, TimerInv]
  | tickResolve out =>
    by_cases hp : s.pending ≥ 1
    · cases out with
      | ok st =>
        rcases hstat : st.status <;>
          rcases hrep : st.report <;>
            by_cases hstd : s.storedTimer <;>
              simp_all [step, pollTickBody, updateProgressView, updateProgress,
                stopPolling, showResults, showError, TimerInv]
      | httpError code =>
        by_cases hstd : s.storedTimer <;>
          simp_all [step, pollTickBody, stopPolling, showError, TimerInv]
      | transportError m =>
        by_cases hstd : s.storedTimer <;>
          simp_all [step, pollTickBody, stopPolling, showError, TimerInv]
    · simp_all [step, TimerInv]
  | resetClick =>
    by_cases hr : resetEnabled s = true <;>
      by_cases hstd : s.storedTimer <;>
        simp_all [step, resetResearch, stopPolling, TimerInv]

theorem regionCount_step (s : AppState) (e : Event)
    (h : regionCount s ≤ 1) : regionCount (step s e) ≤ 1 := by
  cases e with
  | submit raw out =>
    by_cases hen : submitEnabled s = true
    · by_cases hT : jsTrim raw = "" <;> cases out
      all_goals
        simp_all [step, handleSubmitResearch, showError, showProgressView,
          updateProgress, startPolling, regionCount]
      all_goals (split <;> simp_all)
    · simp_all [step]
  | tickFire =>
    by_cases ht : s.timers ≥ 1 <;> simp_all [step, regionCount]
  | tickResolve out =>
    by_cases hp : s.pending ≥ 1
    · cases out with
      | ok st =>
        rcases hstat : st.status <;>
          rcases hrep : st.report <;>
            by_cases hstd : s.storedTimer <;>
              simp_all [step, pollTickBody, updateProgressView, updateProgress,
                stopPolling, showResults, showError, regionCount]
      | httpError code =>
        simp_all [step, pollTickBody, stopPolling, showError, regionCount]
      | transportError m =>
        simp_all [step, pollTickBody, stopPolling, showError, regionCount]
    · simp_all [step]
  | resetClick =>
    by_cases hr : resetEnabled s = true <;>
      simp_all [step, resetResearch, stopPolling, regionCount]

theorem timerInv_run (evs : List Event) :
    ∀ s : AppState, TimerInv s → TimerInv (run s evs) := by
  induction evs with
  | nil => intro s h; exact h
  | cons e evs ih =>
    intro s h
    exact ih (step s e) (timerInv_step s e h)

theorem regionCount_run (evs : List Event) :
    ∀ s : AppState, regionCount s ≤ 1 → regionCount (run s evs) ≤ 1 := by
  induction evs with
  | nil => intro s h; exact h
  | cons e evs ih =>
    intro s h
    exact ih (step s e) (regionCount_step s e h)

theorem timerInv_init : TimerInv initState := by
  constructor <;> simp [initState]

theorem regionCount_init : regionCount initState ≤ 1 := by
  simp [regionCount, initState]

/-! ### Concrete fixtures used by the claim theorems -/

/-- A small completed report exercising every rendered field. -/
def sampleReport : Report :=
  { topic := "AI"
    summary := "**bold** and *italic*"
    key_findings := ["# Title\n## Sub"]
    detailed_analysis := "done"
    analysis_steps := [⟨"q", "a", []⟩]
    sources := [⟨"http://a", some ""⟩] }

/-- A running status at a given progress and step description. -/
def runningSt (p : ℚ) (stp : String) : JobStatus :=
  { status := .running, progress := p, current_step := stp,
    report := none, error := none }

/-- The failed status of the spec's example tick sequence. -/
def failedTimeout : JobStatus :=
  { status := .failed, progress := mkRat 9 10, current_step := "分析中",
    report := none, error := some "timeout" }

/-- A completed status carrying `sampleReport`. -/
def completedSt : JobStatus :=
  { status := .completed, progress := 1, current_step := "完成",
    report := some sampleReport, error := none }

/-- A completed status violating the backend contract: no report. -/
def completedNoReport : JobStatus :=
  { status := .completed, progress := 1, current_step := "生成报告",
    report := none, error := none }

/-- The state in the middle of polling with one status fetch in flight:
a job was submitted and the first interval tick has fired. -/
def pollingState : AppState :=
  run initState [.submit "AI" (.ok "r1"), .tickFire]

/-- Submit a job, let two ticks fire (the first fetch is slow, so two are
in flight at once), resolve the first as failed, and click reset from the
error view.  One fetch is still in flight afterwards. -/
def c1ResetTrace : List Event :=
  [.submit "AI" (.ok "r1"), .tickFire, .tickFire,
   .tickResolve (.ok failedTimeout), .resetClick]

/-- The state after `c1ResetTrace`: back to the idle view, not polling. -/
def c1Mid : AppState := run initState c1ResetTrace

/-- `c1Mid` after the stale in-flight fetch resolves as completed. -/
def c1Final : AppState := step c1Mid (.tickResolve (.ok completedSt))

/-- The state after submitting an empty topic from the idle view. -/
def c2ErrState : AppState := step initState (.submit "" (.ok "r"))

/-- The state after submitting a whitespace-only topic from the idle
view. -/
def c3ErrState : AppState := step initState (.submit "   " (.ok "rX"))

/-- Submit, poll to a reported failure, reset, submit again. -/
def c4Trace : List Event :=
  [.submit "a" (.ok "r1"), .tickFire, .tickResolve (.ok failedTimeout),
   .resetClick, .submit "b" (.ok "r2")]

/-- The spec's example tick sequence: two running ticks, then a failed
tick with error "timeout". -/
def c6Trace : List Event :=
  [.submit "AI" (.ok "r1"),
   .tickFire, .tickResolve (.ok (runningSt (mkRat 2 10) "搜索中")),
   .tickFire, .tickResolve (.ok (runningSt (mkRat 6 10) "分析中")),
   .tickFire, .tickResolve (.ok failedTimeout)]

/-- The state after the spec's example tick sequence. -/
def c6Final : AppState := run initState c6Trace

/-- A completed tick whose status carries no report, during polling. -/
def c5Trace : List Event :=
  [.submit "AI" (.ok "r1"), .tickFire, .tickResolve (.ok completedNoReport)]

/-- The state after `c5Trace`. -/
def c5Final : AppState := run initState c5Trace

/-! ### Claim theorems -/

/-- C1: the claim asserts that a status fetch started before the
controller leaves the Polling state has its result discarded once the
controller is no longer Polling.  The code has no such guard: after
`c1ResetTrace` the controller is demonstrably idle (form visible, no
timer, no stored job id, results hidden), yet when the stale in-flight
fetch resolves, its result is applied in full — the progress text and
percentage are overwritten and the completed report is rendered over the
idle view.  This evaluates the code at the failing input of the claim. -/
theorem c1_late_result_applied :
    c1Mid.formVisible = true ∧ c1Mid.timers = 0 ∧ c1Mid.storedTimer = false ∧
    c1Mid.activeResearchId = none ∧ c1Mid.resultsVisible = false ∧
    c1Mid.pending = 1 ∧ c1Mid.stepText = "分析中" ∧ c1Mid.progressPct = 90 ∧
    c1Final.resultsVisible = true ∧ c1Final.stepText = "完成" ∧
    c1Final.progressPct = 100 ∧ c1Final.formVisible = true ∧
    c1Final.rendered = some (renderReport sampleReport) := by
  decide

/-- C2 counterexample: the claim says every state-entering operation
leaves at most one of the four view regions visible.  Submitting an
empty topic from the initial (reachable) state enters the error state
via `showError`, which does not hide the form card: afterwards both the
form region and the error region are visible. -/
theorem c2_two_regions_visible :
    c2ErrState.formVisible = true ∧ c2ErrState.errorVisible = true ∧
    c2ErrState.progressVisible = false ∧ c2ErrState.resultsVisible = false := by
  decide

/-- C2 as amended: at most one of the progress, results and error
regions is ever visible in a reachable state; entering the progress
state or resetting hides the other three regions, while entering the
results or error state hides the other two non-form regions but leaves
the form region's visibility unchanged. -/
theorem c2_region_exclusivity_amended :
    (∀ (s : AppState) (t : String),
      (showProgressView t s).formVisible = false ∧
      (showProgressView t s).resultsVisible = false ∧
      (showProgressView t s).errorVisible = false ∧
      (showProgressView t s).progressVisible = true) ∧
    (∀ s : AppState,
      (resetResearch s).progressVisible = false ∧
      (resetResearch s).resultsVisible = false ∧
      (resetResearch s).errorVisible = false ∧
      (resetResearch s).formVisible = true) ∧
    (∀ (s : AppState) (m : String),
      (showError m s).progressVisible = false ∧
      (showError m s).resultsVisible = false ∧
      (showError m s).errorVisible = true ∧
      (showError m s).formVisible = s.formVisible) ∧
    (∀ (s : AppState) (st : JobStatus) (r : Report), st.report = some r →
      (showResults st s).progressVisible = false ∧
      (showResults st s).errorVisible = false ∧
      (showResults st s).resultsVisible = true ∧
      (showResults st s).formVisible = s.formVisible) ∧
    (∀ evs : List Event, regionCount (run initState evs) ≤ 1) := by
  refine ⟨?_, ?_, ?_, ?_, ?_⟩
  · intro s t
    simp [showProgressView, updateProgress]
  · intro s
    simp [resetResearch, stopPolling]
  · intro s m
    simp [showError]
  · intro s st r h
    simp [showResults, h]
  · intro evs
    exact regionCount_run evs initState regionCount_init

/-- Witness for C2's amended theorem at a concrete input. -/
theorem c2_region_exclusivity_amended_witness :
    completedSt.report = some sampleReport ∧
    (showResults completedSt initState).resultsVisible = true ∧
    (showResults completedSt initState).formVisible = true := by
  have h :=
    c2_region_exclusivity_amended.2.2.2.1 initState completedSt sampleReport rfl
  exact ⟨rfl, h.2.2.1, by rw [h.2.2.2]; rfl⟩

/-- C3 counterexample: the claim says that after submitting an empty or
whitespace-only topic the ViewState remains Idle.  It does not: the
handler calls `showError`, so the error region becomes visible (with the
inline validation message) — the view is no longer the pure idle
rendering, even though no job was started. -/
theorem c3_error_region_shown :
    c3ErrState.errorVisible = true ∧ c3ErrState.errorMsg = "请输入研究主题" ∧
    ¬c3ErrState = initState := by
  decide

/-- Helper: re-submitting a whitespace-only topic from the
validation-error state changes nothing. -/
theorem c3_submit_fixpoint :
    step c3ErrState (.submit "   " (.ok "rX")) = c3ErrState := by
  decide

/-- Helper: iterating the invalid submission from the error state is
stationary. -/
theorem c3_err_iter (n : Nat) :
    run c3ErrState (List.replicate n (.submit "   " (.ok "rX"))) =
      c3ErrState := by
  induction n with
  | zero => rfl
  | succ n ih =>
    rw [List.replicate_succ]
    show run (step c3ErrState (.submit "   " (.ok "rX")))
      (List.replicate n (.submit "   " (.ok "rX"))) = c3ErrState
    rw [c3_submit_fixpoint]
    exact ih

/-- C3 as amended: for every empty-after-trimming topic, the submission
handler performs no network call, starts no job, creates no schedule and
leaves the form visible with the submit button enabled, but it surfaces
the validation message by showing the error region (the view does not
remain the pure Idle rendering); repeating the invalid submission any
number of times never starts a job, never contacts the network and never
creates a schedule. -/
theorem c3_invalid_submit_amended :
    (∀ (s : AppState) (raw : String) (out : StartOutcome), jsTrim raw = "" →
      (step s (.submit raw out)).networkCalls = s.networkCalls ∧
      (step s (.submit raw out)).activeResearchId = s.activeResearchId ∧
      (step s (.submit raw out)).timers = s.timers ∧
      (step s (.submit raw out)).storedTimer = s.storedTimer ∧
      (step s (.submit raw out)).pending = s.pending ∧
      (step s (.submit raw out)).formVisible = s.formVisible ∧
      (step s (.submit raw out)).startBtnDisabled = s.startBtnDisabled ∧
      (submitEnabled s = true →
        (step s (.submit raw out)).errorVisible = true ∧
        (step s (.submit raw out)).errorMsg = "请输入研究主题")) ∧
    (∀ n : Nat,
      (run initState
        (List.replicate n (.submit "   " (.ok "rX")))).activeResearchId =
          none ∧
      (run initState
        (List.replicate n (.submit "   " (.ok "rX")))).networkCalls = 0 ∧
      (run initState (List.replicate n (.submit "   " (.ok "rX")))).timers =
        0 ∧
      (run initState (List.replicate n (.submit "   " (.ok "rX")))).pending =
        0) := by
  constructor
  · intro s raw out hT
    by_cases hen : submitEnabled s = true <;>
      simp_all [step, handleSubmitResearch, showError, hT]
  · intro n
    cases n with
    | zero => exact ⟨rfl, rfl, rfl, rfl⟩
    | succ n =>
      have hrun : run initState
          (List.replicate (n + 1) (.submit "   " (.ok "rX"))) = c3ErrState := by
        rw [List.replicate_succ]
        show run (step initState (.submit "   " (.ok "rX")))
          (List.replicate n (.submit "   " (.ok "rX"))) = c3ErrState
        exact c3_err_iter n
      rw [hrun]
      exact ⟨rfl, rfl, rfl, rfl⟩

/-- Witness for C3's amended theorem at a concrete input. -/
theorem c3_invalid_submit_amended_witness :
    jsTrim "   " = "" ∧
    (step initState (.submit "   " (.ok "rX"))).networkCalls = 0 ∧
    (step initState (.submit "   " (.ok "rX"))).activeResearchId = none := by
  have h := c3_invalid_submit_amended.1 initState "   " (.ok "rX") rfl
  exact ⟨rfl, by rw [h.1]; rfl, by rw [h.2.1]; rfl⟩

/-- C4: at most one recurring schedule is ever live, a new schedule can
only be created from states with no live schedule (so no stale schedule
can survive a creation), and both the literal submit–reset–submit
sequence and its effective variant (with an intervening failed tick
making the reset button reachable) end with exactly one schedule
ticking. -/
theorem c4_single_schedule :
    (∀ evs : List Event, (run initState evs).timers ≤ 1) ∧
    (∀ evs : List Event, submitEnabled (run initState evs) = true →
      (run initState evs).timers = 0 ∧
      (run initState evs).storedTimer = false) ∧
    (run initState
      [.submit "a" (.ok "r1"), .resetClick, .submit "b" (.ok "r2")]).timers =
        1 ∧
    (run initState c4Trace).timers = 1 ∧
    (run initState c4Trace).storedTimer = true ∧
    (run initState c4Trace).pending = 0 := by
  refine ⟨?_, ?_, by decide, by decide, by decide, by decide⟩
  · intro evs
    obtain ⟨h1, _⟩ := timerInv_run evs initState timerInv_init
    rw [h1]
    split <;> omega
  · intro evs hen
    obtain ⟨h1, h2⟩ := timerInv_run evs initState timerInv_init
    have hf : (run initState evs).formVisible = true := by
      simp only [submitEnabled, Bool.and_eq_true] at hen
      exact hen.1
    have hb : (run initState evs).startBtnDisabled = false := by
      simp only [submitEnabled, Bool.and_eq_true, Bool.not_eq_true'] at hen
      exact hen.2
    have hst := h2 hf hb
    exact ⟨by simp [h1, hst], hst⟩

/-- Witness for C4's quantified parts at a concrete input. -/
theorem c4_single_schedule_witness :
    submitEnabled (run initState []) = true ∧
    (run initState []).timers = 0 := by
  exact ⟨by decide, (c4_single_schedule.2.1 [] (by decide)).1⟩

/-- C5 counterexample: the claim says that on a completed status with no
report the handler "returns to the Idle rendering showing nothing" and
"logs rather than throws".  Neither holds: after such a tick the
progress region is still the visible one (the form — the Idle rendering
— stays hidden and `showResults` returns before touching any region),
and nothing is logged. -/
theorem c5_progress_view_remains :
    c5Final.progressVisible = true ∧ c5Final.formVisible = false ∧
    c5Final.resultsVisible = false ∧ c5Final.errorVisible = false ∧
    c5Final.log = [] ∧ c5Final.timers = 0 ∧ c5Final.rendered = none := by
  decide

/-- C5 as amended: if a tick returns status=completed with no report, no
partial-report rendering is attempted — the handler is a defensive no-op
that stops polling, leaves every view region and all rendered content
exactly as they were (so the progress region, not the Idle rendering,
remains visible), and neither logs nor throws. -/
theorem c5_missing_report_amended :
    ∀ (s : AppState) (st : JobStatus), st.status = .completed →
      st.report = none →
      (pollTickBody (.ok st) s).rendered = s.rendered ∧
      (pollTickBody (.ok st) s).resultsVisible = s.resultsVisible ∧
      (pollTickBody (.ok st) s).progressVisible = s.progressVisible ∧
      (pollTickBody (.ok st) s).formVisible = s.formVisible ∧
      (pollTickBody (.ok st) s).errorVisible = s.errorVisible ∧
      (pollTickBody (.ok st) s).log = s.log ∧
      (pollTickBody (.ok st) s).storedTimer = false := by
  intro s st hstat hrep
  by_cases hstd : s.storedTimer <;>
    simp_all [pollTickBody, updateProgressView, updateProgress, stopPolling,
      showResults, hstat, hrep]

/-- Witness for C5's amended theorem at a concrete input. -/
theorem c5_missing_report_amended_witness :
    completedNoReport.status = .completed ∧
    completedNoReport.report = none ∧
    (pollTickBody (.ok completedNoReport) pollingState).rendered = none ∧
    (pollTickBody (.ok completedNoReport) pollingState).progressVisible =
      true := by
  have h := c5_missing_report_amended pollingState completedNoReport rfl rfl
  exact ⟨rfl, rfl, by rw [h.1]; decide, by rw [h.2.2.1]; decide⟩

/-- C6: processing a failed tick shows the error region with the message
`研究失败: ` followed by the backend error string (falling back to the
`未知错误` sentinel exactly when the error string is absent or empty),
clears the schedule so that no further tick fires, and on the spec's
example sequence (running 0.2, running 0.6, failed "timeout") ends with
the message `研究失败: timeout` and a state on which further tick events
are no-ops. -/
theorem c6_failed_tick :
    (∀ (s : AppState) (st : JobStatus), TimerInv s → 1 ≤ s.pending →
      st.status = .failed →
      (step s (.tickResolve (.ok st))).errorVisible = true ∧
      (step s (.tickResolve (.ok st))).errorMsg =
        "研究失败: " ++ jsOrElse st.error "未知错误" ∧
      (step s (.tickResolve (.ok st))).timers = 0 ∧
      (step s (.tickResolve (.ok st))).storedTimer = false ∧
      step (step s (.tickResolve (.ok st))) .tickFire =
        step s (.tickResolve (.ok st))) ∧
    jsOrElse none "未知错误" = "未知错误" ∧
    jsOrElse (some "") "未知错误" = "未知错误" ∧
    jsOrElse (some "timeout") "未知错误" = "timeout" ∧
    c6Final.errorMsg = "研究失败: timeout" ∧ c6Final.errorVisible = true ∧
    c6Final.progressVisible = false ∧ c6Final.timers = 0 ∧
    c6Final.pending = 0 ∧ step c6Final .tickFire = c6Final ∧
    (∀ out : FetchOutcome, step c6Final (.tickResolve out) = c6Final) := by
  refine ⟨?_, rfl, rfl, rfl, by decide, by decide, by decide, by decide,
    by decide, by decide, ?_⟩
  · rintro s st ⟨h1, h2⟩ hp hstat
    by_cases hstd : s.storedTimer <;>
      simp_all [step, pollTickBody, updateProgressView, updateProgress,
        stopPolling, showError, hstat]
  · have h : c6Final.pending = 0 := by decide
    intro out
    simp [step, h]

/-- Witness for C6's quantified part at a concrete input. -/
theorem c6_failed_tick_witness :
    TimerInv pollingState ∧ 1 ≤ pollingState.pending ∧
    failedTimeout.status = .failed ∧
    (step pollingState (.tickResolve (.ok failedTimeout))).errorMsg =
      "研究失败: timeout" := by
  have hInv : TimerInv pollingState :=
    ⟨by decide, fun hf _ => absurd hf (by decide)⟩
  have h := c6_failed_tick.1 pollingState failedTimeout hInv (by decide) rfl
  exact ⟨hInv, by decide, rfl, by rw [h.2.1]; rfl⟩

/-- C7: the renderer maps `#`, `##`, `###` to the three distinct heading
levels h3, h4, h5, and on `"# Title\n## Sub"` produces the h3 fragment
for "Title" before the h4 fragment for "Sub" (two distinct heading
levels, in document order). -/
theorem c7_heading_levels :
    markdownToHtml (some "# Title\n## Sub") =
      "<h3>Title</h3>" ++ "<br>" ++ "<h4>Sub</h4>" ∧
    markdownToHtml (some "# x") = "<h3>x</h3>" ∧
    markdownToHtml (some "## x") = "<h4>x</h4>" ∧
    markdownToHtml (some "### x") = "<h5>x</h5>" := by
  exact ⟨by decide, by decide, by decide, by decide⟩

/-- C8: rendering `"**bold** and *italic*"` yields a bold-marked "bold"
fragment followed (in that order) by an italic-marked "italic"
fragment. -/
theorem c8_bold_italic_order :
    markdownToHtml (some "**bold** and *italic*") =
      "<strong>" ++ "bold" ++ "</strong>" ++ " and " ++ "<em>" ++ "italic" ++
        "</em>" := by
  decide

/-- C9: in the rendered sources list, the display text of every entry is
the url when the title is absent or empty and the title otherwise; in
particular `{url: "http://a", title: ""}` displays as "http://a". -/
theorem c9_source_display_text :
    (∀ src : SourceRef, src.title = none ∨ src.title = some "" →
      linkText src = src.url) ∧
    (∀ (src : SourceRef) (t : String), src.title = some t → ¬t = "" →
      linkText src = t) ∧
    (∀ r : Report, (renderReport r).sourceLinks =
      r.sources.map fun src => (src.url, linkText src)) ∧
    linkText ⟨"http://a", some ""⟩ = "http://a" := by
  refine ⟨?_, ?_, fun r => rfl, rfl⟩
  · rintro src (h | h) <;> simp [linkText, h]
  · intro src t h ht
    simp [linkText, h, ht]

/-- Witness for C9's quantified parts at a concrete input. -/
theorem c9_source_display_text_witness :
    ((⟨"http://a", some ""⟩ : SourceRef).title = none ∨
      (⟨"http://a", some ""⟩ : SourceRef).title = some "") ∧
    linkText ⟨"http://a", some ""⟩ = "http://a" := by
  exact ⟨Or.inr rfl, c9_source_display_text.1 ⟨"http://a", some ""⟩
    (Or.inr rfl)⟩

/-- C10: `markdownToHtml` is total over absent input — it returns the
empty string on the empty string and on `null`/`undefined` input, so
callers may pass optional report fields unguarded. -/
theorem c10_markdown_absent_total :
    markdownToHtml none = "" ∧ markdownToHtml (some "") = "" := by
  exact ⟨rfl, rfl⟩

end DrDemo
